import Mathlib

/-!
Verification development for the recipe-explorer FastAPI service.

The Python code is shallowly embedded:
* Python `str` becomes `String`, lists become `List`, dict payloads become
  association lists over a small dynamic value type `PyVal`;
* `float` durations are modelled as exact rationals `ℚ`;
* wall-clock readings, generated UUIDs and `datetime.fromisoformat` are
  environment inputs, passed explicitly as parameters;
* raising code is modelled with `Option`/error lists.
-/

namespace RecipeExplorer

/-! ### Python string primitives -/

/-- Characters stripped by Python `str.strip()` with no arguments. -/
def pyIsSpace (c : Char) : Bool :=
  c = ' ' ∨ c = '\t' ∨ c = '\n' ∨ c = '\r' ∨ c = '\x0b' ∨ c = '\x0c'

/-- Python `s.strip()` on the underlying character list. -/
def pyStripList (l : List Char) : List Char :=
  ((l.dropWhile pyIsSpace).reverse.dropWhile pyIsSpace).reverse

/-- Python `s.strip()`. -/
def pyStrip (s : String) : String :=
  ⟨pyStripList s.data⟩

/-- Python `s.lstrip(chars)`. -/
def pyLStrip (chars : List Char) (s : String) : String :=
  ⟨s.data.dropWhile (fun c => c ∈ chars)⟩

/-- Split a character list at every occurrence of separator `sep`
(Python `s.split(sep)` for a one-character separator). -/
def pySplitChar (sep : Char) : List Char → List (List Char)
  | [] => [[]]
  | c :: rest =>
    let r := pySplitChar sep rest
    if c = sep then [] :: r
    else match r with
      | [] => [[c]]
      | g :: gs => (c :: g) :: gs

/-- Python `s.split(sep)` for a one-character separator string. -/
def pySplit (sep : Char) (s : String) : List String :=
  (pySplitChar sep s.data).map (fun l => ⟨l⟩)

/-- Python truthiness of a string: non-empty. -/
def pyTruthyStr (s : String) : Bool := s ≠ ""

/-- Python `pat in l` substring containment on character lists. -/
def containsSub (l pat : List Char) : Bool :=
  l.tails.any (fun t => pat.isPrefixOf t)

/-! ### Dynamic values for JSON-like dict payloads -/

/-- A Python value as it can appear in a request payload (JSON-decoded
data), plus `vTime` for `datetime` objects produced inside the program. -/
inductive PyVal where
  | vStr (s : String)
  | vList (l : List PyVal)
  | vInt (n : Int)
  | vNone
  | vTime (t : Nat)

/-- Python truthiness (`bool(v)`) for the modelled values. -/
def PyVal.truthy : PyVal → Bool
  | .vStr s => s ≠ ""
  | .vList l => !l.isEmpty
  | .vInt n => n ≠ 0
  | .vNone => false
  | .vTime _ => true

/-- A string-keyed Python dict, as an insertion-ordered association list. -/
abbrev PyDict := List (String × PyVal)

/-- Python `d.get(key)` (i.e. `None` default becomes `Option.none`). -/
def pyGet (d : PyDict) (key : String) : Option PyVal :=
  List.lookup key d

/-- Python `d[key] = v` for a key already present (entries keep their
position) or a fresh key (appended, matching dict insertion order). -/
def pySet (d : PyDict) (key : String) (v : PyVal) : PyDict :=
  if (List.lookup key d).isSome then
    d.map (fun p => if p.1 = key then (key, v) else p)
  else d ++ [(key, v)]

/-! ### `app/validation.py`: `ValidationResult` -/

/-- One entry of `ValidationResult.errors`. -/
structure VError where
  field : String
  message : String
  code : String
  deriving DecidableEq, Repr

/-- `ValidationResult.__init__` state: validity flag plus error records. -/
structure ValidationResult where
  is_valid : Bool
  errors : List VError
  deriving DecidableEq, Repr

/-- `ValidationResult()` with the default arguments. -/
def ValidationResult.default : ValidationResult :=
  { is_valid := true, errors := [] }

/-- `ValidationResult.add_error`. -/
def ValidationResult.add_error (r : ValidationResult)
    (field message code : String) : ValidationResult :=
  { is_valid := false
    errors := r.errors ++ [{ field := field, message := message, code := code }] }

/-- The dictionary produced by `ValidationResult.to_dict`. -/
structure ValidationDict where
  is_valid : Bool
  errors : List VError
  error_count : Nat
  deriving DecidableEq, Repr

/-- `ValidationResult.to_dict`. -/
def ValidationResult.to_dict (r : ValidationResult) : ValidationDict :=
  { is_valid := r.is_valid, errors := r.errors, error_count := r.errors.length }

/-! ### `app/models.py`: Pydantic validation

Each field function returns the list of validation errors pydantic reports
for that field together with the validated (transformed) value; the value
is meaningful only when the error list is empty.  Core constraints
(`min_length`/`max_length`, item types) run before the `@field_validator`
functions, which run only when the core constraints pass. -/

/-- A required `str` field with `min_length`/`max_length` plus the
strip-and-reject-blank `@field_validator` shared by `title`,
`description`, `region` and `cuisine`. -/
def pydStrField (minL maxL : Nat) (v : Option PyVal) : List String × String :=
  match v with
  | none => (["missing"], "")
  | some (.vStr s) =>
    if s.length < minL then (["string_too_short"], s)
    else if maxL < s.length then (["string_too_long"], s)
    else if pyStrip s = "" then (["value_error"], s)
    else ([], pyStrip s)
  | some _ => (["string_type"], "")

/-- Errors of the core schema for a required `List[str]` field with
`min_length=1` and the given `max_length`: item type errors plus list
length errors. -/
def pydStrListCoreErrs (maxItems : Nat) (l : List PyVal) : List String :=
  (l.filterMap (fun x => match x with
    | .vStr _ => none
    | _ => some "string_type")) ++
  (if l.length < 1 then ["too_short"] else []) ++
  (if maxItems < l.length then ["too_long"] else [])

/-- The string items of a list all of whose items are strings. -/
def pyStrItems (l : List PyVal) : List String :=
  l.filterMap (fun x => match x with | .vStr s => some s | _ => none)

/-- The `@field_validator` shared by `ingredients` (`minItem = 2`) and
`instructions` (`minItem = 5`): it strips every item and raises on the
first item that is blank or shorter than `minItem` characters. -/
def pydItemsValidator (minItem : Nat) (items : List String) :
    List String × List String :=
  match items.findSome? (fun s =>
      if pyStrip s = "" then some "item_empty"
      else if (pyStrip s).length < minItem then some "item_too_short"
      else none) with
  | some e => ([e], items)
  | none => ([], items.map pyStrip)

/-- A required `List[str]` field (`ingredients`/`instructions`):
core constraints first, then the item validator. -/
def pydStrListField (minItem maxItems : Nat) (v : Option PyVal) :
    List String × List String :=
  match v with
  | none => (["missing"], [])
  | some (.vList l) =>
    let core := pydStrListCoreErrs maxItems l
    if core = [] then pydItemsValidator minItem (pyStrItems l)
    else (core, pyStrItems l)
  | some _ => (["list_type"], [])

/-- The `tags` field: optional with default `[]`, `max_length=20`, and a
validator that skips blank tags and rejects tags longer than 30
characters once stripped. -/
def pydTagsField (v : Option PyVal) : List String × List String :=
  match v with
  | none => ([], [])
  | some (.vList l) =>
    let core := (l.filterMap (fun x => match x with
        | .vStr _ => none
        | _ => some "string_type")) ++
      (if 20 < l.length then ["too_long"] else [])
    if core = [] then
      let items := pyStrItems l
      match items.findSome? (fun s =>
          if pyStrip s = "" then none
          else if 30 < (pyStrip s).length then some "tag_too_long"
          else none) with
      | some e => ([e], items)
      | none => ([], (items.map pyStrip).filter (fun t => t ≠ ""))
    else (core, pyStrItems l)
  | some _ => (["list_type"], [])

/-- The seven user-settable recipe fields, after validation (shared by
`Recipe`, `RecipeCreate` and `RecipeUpdate`, whose field declarations and
validators are identical for these fields). -/
structure RecipeFields where
  title : String
  description : String
  ingredients : List String
  instructions : List String
  tags : List String
  region : String
  cuisine : String
  deriving DecidableEq, Repr

/-- Pydantic validation of the seven shared recipe fields of a payload
dict: all field errors (tagged with the field of their `loc`), in field
declaration order, plus the validated values. -/
def pydRecipeFields (d : PyDict) : List (String × String) × RecipeFields :=
  let t := pydStrField 3 200 (pyGet d "title")
  let de := pydStrField 10 2000 (pyGet d "description")
  let ing := pydStrListField 2 50 (pyGet d "ingredients")
  let ins := pydStrListField 5 50 (pyGet d "instructions")
  let tg := pydTagsField (pyGet d "tags")
  let rg := pydStrField 2 100 (pyGet d "region")
  let cu := pydStrField 2 100 (pyGet d "cuisine")
  (t.1.map (fun e => ("title", e)) ++ de.1.map (fun e => ("description", e)) ++
   ing.1.map (fun e => ("ingredients", e)) ++ ins.1.map (fun e => ("instructions", e)) ++
   tg.1.map (fun e => ("tags", e)) ++ rg.1.map (fun e => ("region", e)) ++
   cu.1.map (fun e => ("cuisine", e)),
   { title := t.2, description := de.2, ingredients := ing.2
     instructions := ins.2, tags := tg.2, region := rg.2, cuisine := cu.2 })

/-- `RecipeCreate(**d)` succeeds. -/
def recipeCreateOk (d : PyDict) : Bool :=
  (pydRecipeFields d).1 = []

/-- `RecipeUpdate(**d)` succeeds (`RecipeUpdate` declares exactly the same
fields and validators as `RecipeCreate`). -/
def recipeUpdateOk (d : PyDict) : Bool :=
  (pydRecipeFields d).1 = []

/-! ### `app/validation.py`: `RecipeValidator` -/

namespace RecipeValidator

/-- `RecipeValidator._validate_title`. -/
def validateTitle (title : PyVal) (result : ValidationResult) : ValidationResult :=
  if ¬ title.truthy then
    result.add_error "title" "Title is required and cannot be empty" "required"
  else match title with
    | .vStr s =>
      let t := pyStrip s
      if t.length = 0 then
        result.add_error "title" "Title cannot be empty or whitespace only" "empty"
      else if 200 < t.length then
        result.add_error "title" "Title cannot exceed 200 characters" "too_long"
      else if t.length < 3 then
        result.add_error "title" "Title must be at least 3 characters long" "too_short"
      else result
    | _ => result.add_error "title" "Title must be a string" "type_error"

/-- `RecipeValidator._validate_description`. -/
def validateDescription (description : PyVal) (result : ValidationResult) :
    ValidationResult :=
  if ¬ description.truthy then
    result.add_error "description" "Description is required and cannot be empty" "required"
  else match description with
    | .vStr s =>
      let t := pyStrip s
      if t.length = 0 then
        result.add_error "description" "Description cannot be empty or whitespace only" "empty"
      else if t.length < 10 then
        result.add_error "description" "Description must be at least 10 characters long" "too_short"
      else if 2000 < t.length then
        result.add_error "description" "Description cannot exceed 2000 characters" "too_long"
      else result
    | _ => result.add_error "description" "Description must be a string" "type_error"

/-- The per-item loop of `RecipeValidator._validate_ingredients`. -/
def ingredientItemErrs (l : List PyVal) (result : ValidationResult) :
    ValidationResult :=
  (l.enum).foldl (fun r p =>
    let fld := "ingredients[" ++ toString p.1 ++ "]"
    match p.2 with
    | .vStr s =>
      if s = "" ∨ pyStrip s = "" then
        r.add_error fld "Ingredient cannot be empty" "empty"
      else if (pyStrip s).length < 2 then
        r.add_error fld "Each ingredient must be at least 2 characters" "too_short"
      else r
    | _ => r.add_error fld "Each ingredient must be a string" "type_error") result

/-- `RecipeValidator._validate_ingredients`. -/
def validateIngredients (ingredients : PyVal) (result : ValidationResult) :
    ValidationResult :=
  if ¬ ingredients.truthy then
    result.add_error "ingredients" "At least one ingredient is required" "required"
  else match ingredients with
    | .vList l =>
      if l.length = 0 then
        result.add_error "ingredients" "At least one ingredient is required" "empty"
      else
        let r := if 50 < l.length then
            result.add_error "ingredients" "Cannot exceed 50 ingredients" "too_many"
          else result
        ingredientItemErrs l r
    | _ => result.add_error "ingredients" "Ingredients must be a list" "type_error"

/-- The per-item loop of `RecipeValidator._validate_instructions`. -/
def instructionItemErrs (l : List PyVal) (result : ValidationResult) :
    ValidationResult :=
  (l.enum).foldl (fun r p =>
    let fld := "instructions[" ++ toString p.1 ++ "]"
    match p.2 with
    | .vStr s =>
      if s = "" ∨ pyStrip s = "" then
        r.add_error fld "Instruction step cannot be empty" "empty"
      else if (pyStrip s).length < 5 then
        r.add_error fld "Each instruction must be at least 5 characters" "too_short"
      else r
    | _ => r.add_error fld "Each instruction must be a string" "type_error") result

/-- `RecipeValidator._validate_instructions`. -/
def validateInstructions (instructions : PyVal) (result : ValidationResult) :
    ValidationResult :=
  if ¬ instructions.truthy then
    result.add_error "instructions" "At least one instruction step is required" "required"
  else match instructions with
    | .vList l =>
      if l.length = 0 then
        result.add_error "instructions" "At least one instruction step is required" "empty"
      else
        let r := if 50 < l.length then
            result.add_error "instructions" "Cannot exceed 50 instruction steps" "too_many"
          else result
        instructionItemErrs l r
    | _ => result.add_error "instructions" "Instructions must be a list of steps" "type_error"

/-- `RecipeValidator._validate_region_cuisine`. -/
def validateRegionCuisine (region cuisine : PyVal) (result : ValidationResult) :
    ValidationResult :=
  let r1 :=
    if ¬ region.truthy then
      result.add_error "region" "Region is required" "required"
    else match region with
      | .vStr s =>
        if pyStrip s = "" then
          result.add_error "region" "Region cannot be empty" "empty"
        else if (pyStrip s).length < 2 then
          result.add_error "region" "Region must be at least 2 characters" "too_short"
        else result
      | _ => result.add_error "region" "Region must be a string" "type_error"
  if ¬ cuisine.truthy then
    r1.add_error "cuisine" "Cuisine is required" "required"
  else match cuisine with
    | .vStr s =>
      if pyStrip s = "" then
        r1.add_error "cuisine" "Cuisine cannot be empty" "empty"
      else if (pyStrip s).length < 2 then
        r1.add_error "cuisine" "Cuisine must be at least 2 characters" "too_short"
      else r1
    | _ => r1.add_error "cuisine" "Cuisine must be a string" "type_error"

/-- `RecipeValidator._validate_tags` (`data.get('tags')` is `None` both
when the key is absent and when it maps to `None`, so both skip). -/
def validateTags (tags : PyVal) (result : ValidationResult) : ValidationResult :=
  match tags with
  | .vNone => result
  | .vList l =>
    let r := if 20 < l.length then
        result.add_error "tags" "Cannot exceed 20 tags" "too_many"
      else result
    (l.enum).foldl (fun r p =>
      let fld := "tags[" ++ toString p.1 ++ "]"
      match p.2 with
      | .vStr s =>
        if s = "" ∨ pyStrip s = "" then
          r.add_error fld "Tag cannot be empty" "empty"
        else if 30 < (pyStrip s).length then
          r.add_error fld "Each tag cannot exceed 30 characters" "too_long"
        else r
      | _ => r.add_error fld "Each tag must be a string" "type_error") r
  | _ => result.add_error "tags" "Tags must be a list" "type_error"

/-- `RecipeValidator.validate_recipe_create`: pydantic errors first, then
the six business checks, in source order. -/
def validate_recipe_create (data : PyDict) : ValidationResult :=
  let r0 := (pydRecipeFields data).1.foldl (fun r fe =>
    r.add_error fe.1 ("Validation failed: " ++ fe.2) "pydantic_error")
    ValidationResult.default
  let get := fun k => (pyGet data k).getD .vNone
  let r1 := validateTitle (get "title") r0
  let r2 := validateDescription (get "description") r1
  let r3 := validateIngredients (get "ingredients") r2
  let r4 := validateInstructions (get "instructions") r3
  let r5 := validateRegionCuisine (get "region") (get "cuisine") r4
  validateTags (get "tags") r5

/-- `RecipeValidator.validate_recipe_update`: identical checks against
`RecipeUpdate`, whose validation agrees with `RecipeCreate`. -/
def validate_recipe_update (data : PyDict) : ValidationResult :=
  let r0 := (pydRecipeFields data).1.foldl (fun r fe =>
    r.add_error fe.1 ("Validation failed: " ++ fe.2) "pydantic_error")
    ValidationResult.default
  let get := fun k => (pyGet data k).getD .vNone
  let r1 := validateTitle (get "title") r0
  let r2 := validateDescription (get "description") r1
  let r3 := validateIngredients (get "ingredients") r2
  let r4 := validateInstructions (get "instructions") r3
  let r5 := validateRegionCuisine (get "region") (get "cuisine") r4
  validateTags (get "tags") r5

end RecipeValidator

/-! ### `app/services/metrics.py`: `MetricsCollector`

Durations (`float`) are modelled as exact rationals; `float('inf')` for
the initial `min_ms` is modelled as `none`; `datetime.now().isoformat()`
timestamps are environment-supplied naturals. -/

/-- Python's banker's rounding of a rational to an integer
(`round(q)`: round half to even). -/
def roundHalfEven (q : ℚ) : ℤ :=
  if q - ⌊q⌋ < 1/2 then ⌊q⌋
  else if 1/2 < q - ⌊q⌋ then ⌊q⌋ + 1
  else if ⌊q⌋ % 2 = 0 then ⌊q⌋ else ⌊q⌋ + 1

/-- Python `round(q, 2)`. -/
def pyRound2 (q : ℚ) : ℚ :=
  (roundHalfEven (q * 100) : ℚ) / 100

/-- Insertion-ordered dict assignment `m[k] = v` for association lists. -/
def assocSet {α : Type} (m : List (String × α)) (k : String) (v : α) :
    List (String × α) :=
  if (List.lookup k m).isSome then
    m.map (fun p => if p.1 = k then (k, v) else p)
  else m ++ [(k, v)]

/-- A metadata value of a recorded metric (the code passes strings,
numbers and booleans). -/
inductive MetaVal where
  | mStr (s : String)
  | mInt (n : Int)
  | mBool (b : Bool)
  deriving DecidableEq, Repr

/-- One entry of `MetricsCollector.metrics`. -/
structure Metric where
  timestamp : Nat
  operation_type : String
  operation_name : String
  duration_ms : ℚ
  metadata : List (String × MetaVal)
  deriving DecidableEq, Repr

/-- One value of `MetricsCollector.operation_stats` (the `defaultdict`
initial value has no `avg_ms` key, hence `Option`; `min_ms = none` is the
initial `float('inf')`). -/
structure OpStats where
  count : Nat
  total_ms : ℚ
  min_ms : Option ℚ
  max_ms : ℚ
  avg_ms : Option ℚ
  deriving DecidableEq, Repr

/-- The `defaultdict` initial statistics value. -/
def OpStats.init : OpStats :=
  { count := 0, total_ms := 0, min_ms := none, max_ms := 0, avg_ms := none }

/-- `MetricsCollector` state. -/
structure MetricsCollector where
  metrics : List Metric
  operation_stats : List (String × OpStats)
  max_metrics : Nat
  deriving DecidableEq, Repr

/-- `MetricsCollector.__init__`. -/
def MetricsCollector.init : MetricsCollector :=
  { metrics := [], operation_stats := [], max_metrics := 1000 }

/-- `MetricsCollector.record` (`ts` is the environment-supplied
timestamp). -/
def MetricsCollector.record (c : MetricsCollector) (ts : Nat)
    (operation_type operation_name : String) (duration_ms : ℚ)
    (metadata : List (String × MetaVal)) : MetricsCollector :=
  let metric : Metric :=
    { timestamp := ts, operation_type := operation_type
      operation_name := operation_name, duration_ms := pyRound2 duration_ms
      metadata := metadata }
  let metrics1 := c.metrics ++ [metric]
  let stats := (List.lookup operation_name c.operation_stats).getD OpStats.init
  let count := stats.count + 1
  let total := stats.total_ms + duration_ms
  let minv : ℚ := match stats.min_ms with
    | none => duration_ms
    | some x => min x duration_ms
  let maxv : ℚ := max stats.max_ms duration_ms
  let newStats : OpStats :=
    { count := count, total_ms := total, min_ms := some minv, max_ms := maxv
      avg_ms := some (pyRound2 (total / (count : ℚ))) }
  { metrics :=
      if c.max_metrics < metrics1.length then
        metrics1.drop (metrics1.length - c.max_metrics)
      else metrics1
    operation_stats := assocSet c.operation_stats operation_name newStats
    max_metrics := c.max_metrics }

/-- Python `l[i:]` (with a possibly negative start index). -/
def pySliceFrom {α : Type} (l : List α) (i : Int) : List α :=
  if i < 0 then l.drop (Int.toNat ((l.length : Int) + i)) else l.drop (Int.toNat i)

/-- `MetricsCollector.get_recent_metrics`, i.e. `self.metrics[-limit:]`. -/
def MetricsCollector.get_recent_metrics (c : MetricsCollector) (limit : Int) :
    List Metric :=
  pySliceFrom c.metrics (-limit)

/-- The arguments of one `record` call. -/
structure RecordCall where
  ts : Nat
  op_type : String
  op_name : String
  duration : ℚ
  metadata : List (String × MetaVal)
  deriving DecidableEq, Repr

/-- The metrics entry a `record` call appends. -/
def callMetric (r : RecordCall) : Metric :=
  { timestamp := r.ts, operation_type := r.op_type, operation_name := r.op_name
    duration_ms := pyRound2 r.duration, metadata := r.metadata }

/-- Run a sequence of `record` calls against a collector state. -/
def foldRecords (c : MetricsCollector) (calls : List RecordCall) :
    MetricsCollector :=
  calls.foldl (fun c r => c.record r.ts r.op_type r.op_name r.duration r.metadata) c

/-- Run a sequence of `record` calls from the freshly constructed
collector. -/
def runRecords (calls : List RecordCall) : MetricsCollector :=
  foldRecords MetricsCollector.init calls

/-- The last `n` elements of a list. -/
def takeLast {α : Type} (n : Nat) (l : List α) : List α :=
  l.drop (l.length - n)

/-- The durations recorded under operation name `n`, in call order. -/
def opDurations (calls : List RecordCall) (n : String) : List ℚ :=
  (calls.filter (fun r => r.op_name = n)).map (fun r => r.duration)

/-! ### `app/models.py`: the full `Recipe` model -/

/-- A validated `Recipe` instance (timestamps as abstract naturals). -/
structure Recipe where
  id : String
  title : String
  description : String
  ingredients : List String
  instructions : List String
  tags : List String
  region : String
  cuisine : String
  source : String
  created_at : Nat
  updated_at : Nat
  deriving DecidableEq, Repr

/-- The `id` field: `str` with a `uuid4` default factory and no other
constraint. -/
def pydIdField (fresh : String) (v : Option PyVal) : List String × String :=
  match v with
  | none => ([], fresh)
  | some (.vStr s) => ([], s)
  | some _ => (["string_type"], "")

/-- The `source` field: `Literal["internal", "external"]`, default
`"internal"`. -/
def pydSourceField (v : Option PyVal) : List String × String :=
  match v with
  | none => ([], "internal")
  | some (.vStr s) =>
    if s = "internal" ∨ s = "external" then ([], s) else (["literal_error"], s)
  | some _ => (["literal_error"], "")

/-- A `datetime` field with a `datetime.now` default factory: accepts
`datetime` objects, ISO strings (through the environment's parser
`parseIso`) and, in pydantic lax mode, integer timestamps. -/
def pydDatetimeField (parseIso : String → Option Nat) (dflt : Nat)
    (v : Option PyVal) : List String × Nat :=
  match v with
  | none => ([], dflt)
  | some (.vTime t) => ([], t)
  | some (.vStr s) =>
    match parseIso s with
    | some t => ([], t)
    | none => (["datetime_parsing"], 0)
  | some (.vInt n) => ([], n.toNat)
  | some _ => (["datetime_type"], 0)

/-- `Recipe(**d)`: all field errors plus the constructed instance
(meaningful only when the error list is empty).  `freshId` and `now` are
the environment-supplied `uuid4()` and `datetime.now()` defaults. -/
def recipePyd (parseIso : String → Option Nat) (freshId : String) (now : Nat)
    (d : PyDict) : List (String × String) × Recipe :=
  let idf := pydIdField freshId (pyGet d "id")
  let fe := pydRecipeFields d
  let src := pydSourceField (pyGet d "source")
  let ca := pydDatetimeField parseIso now (pyGet d "created_at")
  let ua := pydDatetimeField parseIso now (pyGet d "updated_at")
  (idf.1.map (fun e => ("id", e)) ++ fe.1 ++ src.1.map (fun e => ("source", e)) ++
     ca.1.map (fun e => ("created_at", e)) ++ ua.1.map (fun e => ("updated_at", e)),
   { id := idf.2, title := fe.2.title, description := fe.2.description
     ingredients := fe.2.ingredients, instructions := fe.2.instructions
     tags := fe.2.tags, region := fe.2.region, cuisine := fe.2.cuisine
     source := src.2, created_at := ca.2, updated_at := ua.2 })

/-- `Recipe(**d)` succeeds. -/
def recipePydOk (parseIso : String → Option Nat) (freshId : String) (now : Nat)
    (d : PyDict) : Bool :=
  (recipePyd parseIso freshId now d).1 = []

/-! ### `app/services/themealdb_adapter.py` -/

/-- A raw TheMealDB meal payload: a map of string fields. -/
abbrev Meal := List (String × String)

/-- Python `meal.get(key, dflt)`. -/
def mealGet (meal : Meal) (key dflt : String) : String :=
  (List.lookup key meal).getD dflt

/-- Python `line.replace("STEP", "")`. -/
def removeSTEP : List Char → List Char
  | 'S' :: 'T' :: 'E' :: 'P' :: rest => removeSTEP rest
  | c :: rest => c :: removeSTEP rest
  | [] => []

/-- `TheMealDBAdapter._extract_ingredients`: the loop over
`strIngredient1..20` / `strMeasure1..20`. -/
def extract_ingredients (meal : Meal) : List String :=
  let ingredients := (List.range' 1 20).foldl (fun acc i =>
    let ingredient := mealGet meal ("strIngredient" ++ toString i) ""
    let measure := mealGet meal ("strMeasure" ++ toString i) ""
    if ingredient = "" ∨ pyStrip ingredient = "" then acc
    else if measure ≠ "" ∧ pyStrip measure ≠ "" then
      acc ++ [pyStrip measure ++ " " ++ pyStrip ingredient]
    else acc ++ [pyStrip ingredient]) []
  if ingredients = [] then ["No ingredients listed"] else ingredients

/-- The body of the per-line loop of
`TheMealDBAdapter._parse_instructions`. -/
def processInstructionLine (raw : String) : Option String :=
  let line := pyStrip raw
  if line ≠ "" ∧ 5 < line.length then
    let line := pyStrip ⟨removeSTEP line.data⟩
    let line := if line.startsWith ":" then pyStrip ⟨line.data.drop 1⟩ else line
    let headDigit : Bool := match line.data with | c :: _ => c.isDigit | [] => false
    let line :=
      if line ≠ "" ∧ headDigit then
        pyStrip (pyLStrip "0123456789.:) ".data line)
      else line
    if line ≠ "" then some line else none
  else none

/-- `TheMealDBAdapter._parse_instructions`. -/
def parse_instructions (instructions_text : String) : List String :=
  if instructions_text = "" ∨ pyStrip instructions_text = "" then
    ["No instructions provided"]
  else
    let steps := (pySplit '\n' instructions_text).filterMap processInstructionLine
    let steps :=
      if steps.length < 2 ∧ '.' ∈ instructions_text.data then
        (pySplit '.' instructions_text).filterMap (fun s =>
          if pyStrip s ≠ "" ∧ 10 < (pyStrip s).length then some (pyStrip s) else none)
      else steps
    if steps = [] then [pyStrip instructions_text] else steps

/-- `TheMealDBAdapter._create_description`. -/
def create_description (meal : Meal) : String :=
  let category := mealGet meal "strCategory" ""
  let area := mealGet meal "strArea" ""
  let parts :=
    (if area ≠ "" then ["A delicious " ++ area ++ " dish"]
     else ["A delicious recipe"]) ++
    (if category ≠ "" then ["from the " ++ category ++ " category"] else []) ++
    ["This " ++ mealGet meal "strMeal" "recipe" ++
      " is sourced from TheMealDB community database."]
  let description := String.intercalate " " parts
  if description.length < 10 then
    "This is a traditional recipe for " ++ mealGet meal "strMeal" "this dish" ++
      " from TheMealDB."
  else description

/-- The dictionary `TheMealDBAdapter._transform_meal_to_recipe` returns
(`created_at`/`updated_at` hold the environment-supplied
`datetime.now().isoformat()` string `nowIso`). -/
structure TransformedRecipe where
  id : String
  title : String
  description : String
  ingredients : List String
  instructions : List String
  tags : List String
  region : String
  cuisine : String
  created_at : String
  updated_at : String
  source : String
  deriving DecidableEq, Repr

/-- `TheMealDBAdapter._transform_meal_to_recipe`. -/
def transform_meal_to_recipe (nowIso : String) (meal : Meal) : TransformedRecipe :=
  let meal_id := mealGet meal "idMeal" ""
  let title := mealGet meal "strMeal" "Unknown Recipe"
  let category := mealGet meal "strCategory" ""
  let area := mealGet meal "strArea" "International"
  let instructions_text := mealGet meal "strInstructions" ""
  let tags_text := mealGet meal "strTags" ""
  let ingredients := extract_ingredients meal
  let instructions := parse_instructions instructions_text
  let tags :=
    if tags_text ≠ "" then
      (pySplit ',' tags_text).filterMap (fun t =>
        if pyStrip t ≠ "" then some (pyStrip t) else none)
    else []
  let tags := if category ≠ "" ∧ category ∉ tags then tags ++ [category] else tags
  { id := meal_id, title := title, description := create_description meal
    ingredients := ingredients, instructions := instructions
    tags := tags.take 20
    region := if area ≠ "" then area else "International"
    cuisine := if area ≠ "" then area else "International"
    created_at := nowIso, updated_at := nowIso, source := "external" }

/-- The transformed dictionary as a payload dict, as it is handed to
`Recipe(**recipe_data)` in the API routes. -/
def TransformedRecipe.toDict (t : TransformedRecipe) : PyDict :=
  [("id", .vStr t.id), ("title", .vStr t.title),
   ("description", .vStr t.description),
   ("ingredients", .vList (t.ingredients.map .vStr)),
   ("instructions", .vList (t.instructions.map .vStr)),
   ("tags", .vList (t.tags.map .vStr)),
   ("region", .vStr t.region), ("cuisine", .vStr t.cuisine),
   ("created_at", .vStr t.created_at), ("updated_at", .vStr t.updated_at),
   ("source", .vStr t.source)]

/-! ### `app/services/storage.py`

`RecipeStorage.recipes` is an insertion-ordered dict, modelled as an
association list; the global `metrics_collector` the storage methods
record into is carried alongside in a `World`.  Wall-clock readings,
per-call measured durations and generated UUIDs are explicit
parameters. -/

/-- The program state the claims are about: the storage mapping plus the
global metrics collector. -/
structure World where
  storage : List (String × Recipe)
  metrics : MetricsCollector

/-- The hardcoded recipe `_add_default_test_recipe` stores (its literal
arguments pass every `Recipe` validator and are already stripped). -/
def defaultTestRecipe (now : Nat) : Recipe :=
  { id := "test-recipe-schema-001"
    title := "Test Recipe - Jamie Chen Schema Update"
    description := "A test recipe to validate the new schema with cuisine field, instructions as array, and no difficulty field."
    ingredients :=
      ["2 cups test ingredient A", "1 cup test ingredient B",
       "3 tablespoons test seasoning", "Salt and pepper to taste"]
    instructions :=
      ["Prepare all ingredients by washing and chopping as needed.",
       "Heat oil in a large pan over medium heat.",
       "Add ingredient A and cook for 5 minutes, stirring occasionally.",
       "Mix in ingredient B and test seasoning.",
       "Season with salt and pepper, cook for another 3 minutes.",
       "Serve immediately while hot."]
    tags := ["test", "schema-validation", "quick"]
    region := "Test Region", cuisine := "Test Cuisine"
    source := "internal", created_at := now, updated_at := now }

/-- `RecipeStorage.__init__`: empty dict, then the hardcoded test
recipe keyed by its id. -/
def storageInit (now : Nat) : List (String × Recipe) :=
  assocSet [] "test-recipe-schema-001" (defaultTestRecipe now)

/-- `RecipeStorage.get_all_recipes`. -/
def get_all_recipes (w : World) (ts : Nat) (d : ℚ) : List Recipe × World :=
  let result := w.storage.map (fun p => p.2)
  (result,
   { w with metrics := (w.metrics.record ts "internal" "get_all_recipes" d
       [("result_count", .mInt result.length)]) })

/-- `RecipeStorage.get_recipe`. -/
def get_recipe (w : World) (recipe_id : String) (ts : Nat) (d : ℚ) :
    Option Recipe × World :=
  let result := List.lookup recipe_id w.storage
  (result,
   { w with metrics := (w.metrics.record ts "internal" "get_recipe" d
       [("recipe_id", .mStr recipe_id), ("found", .mBool result.isSome)]) })

/-- `RecipeStorage.search_recipes` (an empty query returns early through
`get_all_recipes`, so only that method's metric is recorded). -/
def search_recipes (w : World) (query : String) (ts : Nat) (d : ℚ) :
    List Recipe × World :=
  if query = "" then get_all_recipes w ts d
  else
    let results := w.storage.filterMap (fun p =>
      if containsSub (p.2.title.toLower).data (query.toLower).data then some p.2
      else none)
    (results,
     { w with metrics := (w.metrics.record ts "internal" "search_recipes" d
         [("query", .mStr query), ("result_count", .mInt results.length)]) })

/-- The seven validated fields as the `model_dump()` payload handed to
`Recipe(**...)` in `create_recipe`. -/
def RecipeFields.toDict (f : RecipeFields) : PyDict :=
  [("title", .vStr f.title), ("description", .vStr f.description),
   ("ingredients", .vList (f.ingredients.map .vStr)),
   ("instructions", .vList (f.instructions.map .vStr)),
   ("tags", .vList (f.tags.map .vStr)),
   ("region", .vStr f.region), ("cuisine", .vStr f.cuisine)]

/-- `RecipeStorage.create_recipe`: re-validates the dumped `RecipeCreate`
fields through `Recipe(**...)`; when that raises, the exception
propagates before anything is stored or recorded. -/
def create_recipe (w : World) (f : RecipeFields) (fresh : String)
    (now ts : Nat) (d : ℚ) : Option Recipe × World :=
  let p := recipePyd (fun _ => none) fresh now f.toDict
  if p.1 = [] then
    let recipe := p.2
    (some recipe,
     { storage := assocSet w.storage recipe.id recipe
       metrics := (w.metrics.record ts "internal" "create_recipe" d
         [("recipe_id", .mStr recipe.id)]) })
  else (none, w)

/-- The in-place `setattr` loop of `RecipeStorage.update_recipe`: every
`RecipeUpdate` field is overwritten, then `updated_at` is refreshed. -/
def applyUpdate (r : Recipe) (f : RecipeFields) (now : Nat) : Recipe :=
  { r with
    title := f.title, description := f.description,
    ingredients := f.ingredients, instructions := f.instructions,
    tags := f.tags, region := f.region, cuisine := f.cuisine,
    updated_at := now }

/-- `RecipeStorage.update_recipe`. -/
def update_recipe (w : World) (recipe_id : String) (f : RecipeFields)
    (now ts : Nat) (d : ℚ) : Option Recipe × World :=
  match List.lookup recipe_id w.storage with
  | none =>
    (none,
     { w with metrics := (w.metrics.record ts "internal" "update_recipe" d
         [("recipe_id", .mStr recipe_id), ("success", .mBool false)]) })
  | some recipe =>
    let r := applyUpdate recipe f now
    (some r,
     { storage := assocSet w.storage recipe_id r
       metrics := (w.metrics.record ts "internal" "update_recipe" d
         [("recipe_id", .mStr recipe_id), ("success", .mBool true)]) })

/-- `RecipeStorage.delete_recipe`. -/
def delete_recipe (w : World) (recipe_id : String) (ts : Nat) (d : ℚ) :
    Bool × World :=
  let success := (List.lookup recipe_id w.storage).isSome
  (success,
   { storage :=
       (if success then w.storage.filter (fun p => ¬ p.1 = recipe_id)
        else w.storage)
     metrics := (w.metrics.record ts "internal" "delete_recipe" d
       [("recipe_id", .mStr recipe_id), ("success", .mBool success)]) })

/-- One element of the JSON array handed to `import_recipes`: a JSON
object, or any other JSON value (every non-dict raises inside the `try`
and is skipped). -/
inductive ImportEntry where
  | dict (d : PyDict)
  | nonDict

/-- `datetime.fromisoformat(d[key])` applied in place when `key` is
present: a non-string value or an unparsable string raises (`none`). -/
def convertTimeField (parseIso : String → Option Nat) (d : PyDict)
    (key : String) : Option PyDict :=
  match pyGet d key with
  | none => some d
  | some (.vStr s) =>
    match parseIso s with
    | some t => some (pySet d key (.vTime t))
    | none => none
  | some _ => none

/-- The body of the `import_recipes` loop for one entry: `created_at` /
`updated_at` conversion followed by `Recipe(**recipe_dict)`; `none` means
the entry raised and is skipped. -/
def importTry (parseIso : String → Option Nat) (fresh : String) (now : Nat) :
    ImportEntry → Option Recipe
  | .nonDict => none
  | .dict d =>
    (convertTimeField parseIso d "created_at").bind fun d1 =>
    (convertTimeField parseIso d1 "updated_at").bind fun d2 =>
    let p := recipePyd parseIso fresh now d2
    if p.1 = [] then some p.2 else none

/-- `RecipeStorage.import_recipes`: clears the mapping, then stores each
successfully constructed recipe keyed by its id, counting them
(`freshIds i` is the `uuid4()` default for the `i`-th entry). -/
def import_recipes (w : World) (parseIso : String → Option Nat)
    (freshIds : Nat → String) (now : Nat) (data : List ImportEntry)
    (ts : Nat) (d : ℚ) : Nat × World :=
  let res := (data.enum).foldl (fun acc p =>
    match importTry parseIso (freshIds p.1) now p.2 with
    | some r => (assocSet acc.1 r.id r, acc.2 + 1)
    | none => acc) (([] : List (String × Recipe)), 0)
  (res.2,
   { storage := res.1
     metrics := (w.metrics.record ts "internal" "import_recipes" d
       [("total_recipes", .mInt data.length), ("imported_count", .mInt res.2)]) })

/-! ### `app/validation.py`: query and id validators used by the routes -/

/-- `validate_search_query`. -/
def validate_search_query (query : Option String) : ValidationResult :=
  match query with
  | none => ValidationResult.default
  | some s =>
    if pyStrip s = "" then
      ValidationResult.default.add_error "search" "Search query cannot be empty" "empty"
    else if 100 < s.length then
      ValidationResult.default.add_error "search" "Search query cannot exceed 100 characters" "too_long"
    else ValidationResult.default

/-- `validate_recipe_id` (the two regexes anchored with caret and dollar
are modelled as full-string matches). -/
def validate_recipe_id (recipe_id : String) : ValidationResult :=
  if recipe_id = "" then
    ValidationResult.default.add_error "recipe_id" "Recipe ID is required" "required"
  else if pyStrip recipe_id = "" then
    ValidationResult.default.add_error "recipe_id" "Recipe ID cannot be empty" "empty"
  else if 100 < recipe_id.length then
    ValidationResult.default.add_error "recipe_id" "Recipe ID cannot exceed 100 characters" "too_long"
  else
    let uuidLike := recipe_id.length = 36 ∧
      recipe_id.data.all (fun c => ('a' ≤ c ∧ c ≤ 'f') ∨ c.isDigit ∨ c = '-')
    let idLike := recipe_id.data ≠ [] ∧
      recipe_id.data.all (fun c => c.isAlphanum ∨ c = '_' ∨ c = '-')
    if uuidLike ∨ recipe_id.startsWith "test-" ∨ idLike then
      ValidationResult.default
    else
      ValidationResult.default.add_error "recipe_id" "Recipe ID contains invalid characters" "invalid_format"

/-! ### `app/services/themealdb_adapter.py`: the network-facing methods

The third-party HTTP API is an oracle: `searchResp` / `lookupResp` give
the decoded `meals` array for a request (`none` models the timeout, HTTP
error and unexpected-exception paths, which all produce the empty
result). -/

/-- The environment of a request: HTTP responses, the current clock and
the `uuid4` supply. -/
structure Net where
  searchResp : String → Option (List Meal)
  lookupResp : String → Option (List Meal)
  nowIso : String
  parseIso : String → Option Nat
  now : Nat
  freshId : String

/-- `TheMealDBAdapter.search_meals` (a blank query returns before the
timer starts, so no metric is recorded). -/
def search_meals (net : Net) (w : World) (query : String) (ts : Nat) (d : ℚ) :
    List TransformedRecipe × World :=
  if query = "" ∨ pyStrip query = "" then ([], w)
  else
    let result := match net.searchResp (pyStrip query) with
      | none => []
      | some meals =>
        if meals.isEmpty then []
        else meals.map (transform_meal_to_recipe net.nowIso)
    (result,
     { w with metrics := (w.metrics.record ts "external" "search_meals" d
         [("query", .mStr query), ("result_count", .mInt result.length)]) })

/-- `TheMealDBAdapter.get_meal_by_id` (an empty id returns before the
timer starts, so no metric is recorded). -/
def get_meal_by_id (net : Net) (w : World) (meal_id : String) (ts : Nat)
    (d : ℚ) : Option TransformedRecipe × World :=
  if meal_id = "" then (none, w)
  else
    let result := match net.lookupResp meal_id with
      | none => none
      | some meals =>
        match meals with
        | [] => none
        | meal :: _ => some (transform_meal_to_recipe net.nowIso meal)
    (result,
     { w with metrics := (w.metrics.record ts "external" "get_meal_by_id" d
         [("meal_id", .mStr meal_id), ("found", .mBool result.isSome)]) })

/-! ### `app/routes/api.py`: the two external-facing GET handlers -/

/-- The responses the handlers can produce (bodies reduced to the data
the claims mention). -/
inductive ApiResponse where
  | successList (recipes : List Recipe)
  | successOne (recipe : Recipe)
  | validationError (v : ValidationDict)
  | notFound (what id : String)
  | serverError (msg : String)

/-- `GET /api/recipes` (`get_recipes` in `api.py`): optional search over
internal storage plus the external API, each called part recording its
own metric. -/
def apiGetRecipes (net : Net) (w : World) (search : Option String)
    (ts1 : Nat) (d1 : ℚ) (ts2 : Nat) (d2 : ℚ) : ApiResponse × World :=
  let v := validate_search_query search
  if search.isSome ∧ ¬ v.is_valid then (.validationError v.to_dict, w)
  else
    match search with
    | some s =>
      if s ≠ "" then
        let ir := search_recipes w s ts1 d1
        let er := search_meals net ir.2 s ts2 d2
        let external := er.1.filterMap (fun t =>
          let p := recipePyd net.parseIso net.freshId net.now t.toDict
          if p.1 = [] then some p.2 else none)
        (.successList (ir.1 ++ external), er.2)
      else
        let ar := get_all_recipes w ts1 d1
        (.successList ar.1, ar.2)
    | none =>
      let ar := get_all_recipes w ts1 d1
      (.successList ar.1, ar.2)

/-- `GET /api/recipes/external/recipe_id` (`get_external_recipe` in
`api.py`). -/
def apiGetExternalRecipe (net : Net) (w : World) (recipe_id : String)
    (ts : Nat) (d : ℚ) : ApiResponse × World :=
  let v := validate_recipe_id recipe_id
  if ¬ v.is_valid then (.validationError v.to_dict, w)
  else
    let rr := get_meal_by_id net w recipe_id ts d
    match rr.1 with
    | none => (.notFound "External recipe" recipe_id, rr.2)
    | some t =>
      let p := recipePyd net.parseIso net.freshId net.now t.toDict
      if p.1 = [] then (.successOne p.2, rr.2)
      else (.serverError "Failed to process external recipe data", rr.2)

/-! ### Declarative companions and example inputs used by the theorems -/

/-- Apply a sequence of `add_error` calls (field, message, code). -/
def applyErrors (r : ValidationResult) (calls : List (String × String × String)) :
    ValidationResult :=
  calls.foldl (fun r c => r.add_error c.1 c.2.1 c.2.2) r

/-- The entry `_extract_ingredients` emits for index `i`, declaratively. -/
def extractEntry (meal : Meal) (i : Nat) : Option String :=
  let ingredient := mealGet meal ("strIngredient" ++ toString i) ""
  let measure := mealGet meal ("strMeasure" ++ toString i) ""
  if pyStrip ingredient = "" then none
  else if pyStrip measure ≠ "" then
    some (pyStrip measure ++ " " ++ pyStrip ingredient)
  else some (pyStrip ingredient)

/-- Declarative form of the `_extract_ingredients` loop: one entry per
index `1..20` whose ingredient is non-blank, in index order. -/
def extractIngredientsSpec (meal : Meal) : List String :=
  (List.range' 1 20).filterMap (extractEntry meal)

/-- The statistics entry `record` maintains for a name, as a function of
the durations recorded under that name (`none` when the name was never
recorded). -/
def statsOf (ds : List ℚ) : Option OpStats :=
  match ds with
  | [] => none
  | d :: rest =>
    some { count := (d :: rest).length
           total_ms := (d :: rest).sum
           min_ms := some (rest.foldl min d)
           max_ms := (d :: rest).foldl max 0
           avg_ms := some (pyRound2 ((d :: rest).sum / ((d :: rest).length : ℚ))) }

/-- The recipes successfully constructed by an `import_recipes` call, in
input order. -/
def importResults (parseIso : String → Option Nat) (freshIds : Nat → String)
    (now : Nat) (data : List ImportEntry) : List Recipe :=
  (data.enum).filterMap (fun p => importTry parseIso (freshIds p.1) now p.2)

/-- The statistics update `record` performs on the entry for the
recorded operation name. -/
def recordStats (prev : OpStats) (dm : ℚ) : OpStats :=
  { count := prev.count + 1
    total_ms := prev.total_ms + dm
    min_ms := some (match prev.min_ms with | none => dm | some x => min x dm)
    max_ms := max prev.max_ms dm
    avg_ms := some (pyRound2 ((prev.total_ms + dm) / ((prev.count + 1 : Nat) : ℚ))) }

/-- The storage states reachable through the constructor and the four
mutating operations of `RecipeStorage`. -/
inductive Reachable : World → Prop where
  | init (now : Nat) (m : MetricsCollector) :
      Reachable { storage := storageInit now, metrics := m }
  | create {w : World} (f : RecipeFields) (fresh : String) (now ts : Nat) (d : ℚ) :
      Reachable w → Reachable (create_recipe w f fresh now ts d).2
  | update {w : World} (recipe_id : String) (f : RecipeFields) (now ts : Nat) (d : ℚ) :
      Reachable w → Reachable (update_recipe w recipe_id f now ts d).2
  | delete {w : World} (recipe_id : String) (ts : Nat) (d : ℚ) :
      Reachable w → Reachable (delete_recipe w recipe_id ts d).2
  | importR {w : World} (parseIso : String → Option Nat) (freshIds : Nat → String)
      (now : Nat) (data : List ImportEntry) (ts : Nat) (d : ℚ) :
      Reachable w → Reachable (import_recipes w parseIso freshIds now data ts d).2

/-- A payload accepted by schema and validator alike. -/
def goodRecipePayload : PyDict :=
  [("title", .vStr "Pancakes"),
   ("description", .vStr "Fluffy breakfast pancakes."),
   ("ingredients", .vList [.vStr "flour", .vStr "milk"]),
   ("instructions", .vList [.vStr "Mix everything together."]),
   ("tags", .vList [.vStr "breakfast"]),
   ("region", .vStr "North America"),
   ("cuisine", .vStr "American")]

/-- The same payload with a whitespace-only tag: `RecipeCreate` skips the
blank tag, while `_validate_tags` rejects it. -/
def blankTagPayload : PyDict :=
  [("title", .vStr "Pancakes"),
   ("description", .vStr "Fluffy breakfast pancakes."),
   ("ingredients", .vList [.vStr "flour", .vStr "milk"]),
   ("instructions", .vList [.vStr "Mix everything together."]),
   ("tags", .vList [.vStr " "]),
   ("region", .vStr "North America"),
   ("cuisine", .vStr "American")]

/-- A meal payload whose 2-character `strMeal` yields a title the
`Recipe` schema rejects. -/
def shortTitleMeal : Meal := [("strMeal", "ab")]

/-- A sequence of seven validated recipe fields, used as update data in
examples. -/
def sampleFields : RecipeFields :=
  { title := "Updated title", description := "An updated description."
    ingredients := ["flour", "milk"], instructions := ["Mix everything together."]
    tags := ["breakfast"], region := "North America", cuisine := "American" }

/-! ## Theorems -/

/-! ### Generic lemmas about the embedded primitives -/

theorem add_error_is_valid (r : ValidationResult) (f m c : String) :
    (r.add_error f m c).is_valid = false := rfl

theorem add_error_errors (r : ValidationResult) (f m c : String) :
    (r.add_error f m c).errors =
      r.errors ++ [{ field := f, message := m, code := c }] := rfl

theorem applyErrors_errors (calls : List (String × String × String)) :
    ∀ r, (applyErrors r calls).errors =
      r.errors ++ calls.map (fun c => { field := c.1, message := c.2.1, code := c.2.2 }) := by
  induction calls with
  | nil => intro r; simp [applyErrors]
  | cons a t ih =>
    intro r
    simp only [applyErrors, List.foldl_cons, List.map_cons] at *
    rw [ih]
    simp [ValidationResult.add_error]

theorem applyErrors_is_valid (calls : List (String × String × String)) :
    ∀ r, (applyErrors r calls).is_valid = (r.is_valid && calls.isEmpty) := by
  induction calls with
  | nil => intro r; simp [applyErrors]
  | cons a t ih =>
    intro r
    simp only [applyErrors, List.foldl_cons] at *
    rw [ih]
    simp [ValidationResult.add_error]

theorem foldl_valid_mono {β : Type} (g : ValidationResult → β → ValidationResult)
    (hg : ∀ r b, (g r b).is_valid = true → r.is_valid = true) :
    ∀ (l : List β) (r : ValidationResult),
      (l.foldl g r).is_valid = true → r.is_valid = true := by
  intro l
  induction l with
  | nil => intro r h; exact h
  | cons a t ih => intro r h; exact hg _ _ (ih _ h)

/-! ### C7: `ValidationResult` invariant -/

/-- C7: starting from the default construction, after any sequence of
`add_error` calls the flag and the error list agree (`is_valid` is true
iff `errors` is empty) and `to_dict` reports `error_count` equal to the
length of the error list. -/
theorem validationResult_flag_matches_errors (calls : List (String × String × String)) :
    ((applyErrors ValidationResult.default calls).is_valid
      = (applyErrors ValidationResult.default calls).errors.isEmpty)
    ∧ (applyErrors ValidationResult.default calls).to_dict.error_count
      = (applyErrors ValidationResult.default calls).errors.length := by
  refine ⟨?_, rfl⟩
  rw [applyErrors_is_valid, applyErrors_errors]
  cases calls <;> simp [ValidationResult.default]

/-! ### C1: the imperative validator versus the pydantic schema -/

theorem validateTitle_mono (v : PyVal) (r : ValidationResult) :
    (RecipeValidator.validateTitle v r).is_valid = true → r.is_valid = true := by
  intro h
  simp only [RecipeValidator.validateTitle] at h
  repeat' split at h
  all_goals simp_all [ValidationResult.add_error]

theorem validateDescription_mono (v : PyVal) (r : ValidationResult) :
    (RecipeValidator.validateDescription v r).is_valid = true → r.is_valid = true := by
  intro h
  simp only [RecipeValidator.validateDescription] at h
  repeat' split at h
  all_goals simp_all [ValidationResult.add_error]

theorem ingredientItemErrs_mono (l : List PyVal) (r : ValidationResult) :
    (RecipeValidator.ingredientItemErrs l r).is_valid = true → r.is_valid = true := by
  intro h
  unfold RecipeValidator.ingredientItemErrs at h
  refine foldl_valid_mono _ ?_ _ _ h
  intro r b hb
  simp only at hb
  repeat' split at hb
  all_goals simp_all [ValidationResult.add_error]

theorem instructionItemErrs_mono (l : List PyVal) (r : ValidationResult) :
    (RecipeValidator.instructionItemErrs l r).is_valid = true → r.is_valid = true := by
  intro h
  unfold RecipeValidator.instructionItemErrs at h
  refine foldl_valid_mono _ ?_ _ _ h
  intro r b hb
  simp only at hb
  repeat' split at hb
  all_goals simp_all [ValidationResult.add_error]

theorem validateIngredients_mono (v : PyVal) (r : ValidationResult) :
    (RecipeValidator.validateIngredients v r).is_valid = true → r.is_valid = true := by
  intro h
  simp only [RecipeValidator.validateIngredients] at h
  repeat' split at h
  all_goals
    first
      | (simp_all [ValidationResult.add_error]; done)
      | (have h2 := ingredientItemErrs_mono _ _ h
         simp_all [ValidationResult.add_error])

theorem validateInstructions_mono (v : PyVal) (r : ValidationResult) :
    (RecipeValidator.validateInstructions v r).is_valid = true → r.is_valid = true := by
  intro h
  simp only [RecipeValidator.validateInstructions] at h
  repeat' split at h
  all_goals
    first
      | (simp_all [ValidationResult.add_error]; done)
      | (have h2 := instructionItemErrs_mono _ _ h
         simp_all [ValidationResult.add_error])

theorem validateRegionCuisine_mono (a b : PyVal) (r : ValidationResult) :
    (RecipeValidator.validateRegionCuisine a b r).is_valid = true → r.is_valid = true := by
  intro h
  simp only [RecipeValidator.validateRegionCuisine] at h
  repeat' split at h
  all_goals simp_all [ValidationResult.add_error]

theorem validateTags_mono (v : PyVal) (r : ValidationResult) :
    (RecipeValidator.validateTags v r).is_valid = true → r.is_valid = true := by
  intro h
  simp only [RecipeValidator.validateTags] at h
  split at h
  · exact h
  · have h2 := foldl_valid_mono _ ?_ _ _ h
    · split at h2 <;> simp_all [ValidationResult.add_error]
    · intro r b hb
      repeat' split at hb
      all_goals simp_all [ValidationResult.add_error]
  · simp_all [ValidationResult.add_error]

theorem pydFold_invalid (l : List (String × String)) :
    ∀ r : ValidationResult, r.is_valid = false →
      (l.foldl (fun r fe =>
        r.add_error fe.1 ("Validation failed: " ++ fe.2) "pydantic_error") r).is_valid
        = false := by
  induction l with
  | nil => intro r h; exact h
  | cons a t ih => intro r _; exact ih _ rfl

theorem pydFold_valid_nil (l : List (String × String))
    (h : (l.foldl (fun r fe =>
        r.add_error fe.1 ("Validation failed: " ++ fe.2) "pydantic_error")
        ValidationResult.default).is_valid = true) : l = [] := by
  cases l with
  | nil => rfl
  | cons a t =>
    exfalso
    rw [List.foldl_cons, pydFold_invalid t _ rfl] at h
    exact Bool.false_ne_true h

/-- C1 (amended): whenever the imperative validator declares a payload
valid, the pydantic schema accepts it too (for both create and update);
the converse direction of the original claim fails, see the
counterexample. -/
theorem validator_accepts_only_schema_accepted (d : PyDict) :
    ((RecipeValidator.validate_recipe_create d).is_valid = true →
      recipeCreateOk d = true)
    ∧ ((RecipeValidator.validate_recipe_update d).is_valid = true →
      recipeUpdateOk d = true) := by
  constructor <;> intro h
  · simp only [RecipeValidator.validate_recipe_create] at h
    have h1 := validateTags_mono _ _ h
    have h2 := validateRegionCuisine_mono _ _ _ h1
    have h3 := validateInstructions_mono _ _ h2
    have h4 := validateIngredients_mono _ _ h3
    have h5 := validateDescription_mono _ _ h4
    have h6 := validateTitle_mono _ _ h5
    have h7 := pydFold_valid_nil _ h6
    simp [recipeCreateOk, h7]
  · simp only [RecipeValidator.validate_recipe_update] at h
    have h1 := validateTags_mono _ _ h
    have h2 := validateRegionCuisine_mono _ _ _ h1
    have h3 := validateInstructions_mono _ _ h2
    have h4 := validateIngredients_mono _ _ h3
    have h5 := validateDescription_mono _ _ h4
    have h6 := validateTitle_mono _ _ h5
    have h7 := pydFold_valid_nil _ h6
    simp [recipeUpdateOk, h7]

/-- C1 witness: a concrete payload both layers accept. -/
theorem validator_accepts_only_schema_accepted_witness :
    recipeCreateOk goodRecipePayload = true
    ∧ recipeUpdateOk goodRecipePayload = true :=
  ⟨(validator_accepts_only_schema_accepted goodRecipePayload).1 (by decide),
   (validator_accepts_only_schema_accepted goodRecipePayload).2 (by decide)⟩

/-- C1 counterexample: a payload with a whitespace-only tag is accepted
by `RecipeCreate` (its validator skips blank tags) but rejected by the
imperative validator, refuting the claimed equivalence. -/
theorem validator_schema_not_equivalent :
    recipeCreateOk blankTagPayload = true
    ∧ (RecipeValidator.validate_recipe_create blankTagPayload).is_valid = false := by
  constructor <;> decide

/-! ### C6: `_extract_ingredients` -/

theorem extract_step (meal : Meal) (i : Nat) (acc : List String) :
    (if mealGet meal ("strIngredient" ++ toString i) "" = ""
        ∨ pyStrip (mealGet meal ("strIngredient" ++ toString i) "") = "" then acc
     else if mealGet meal ("strMeasure" ++ toString i) "" ≠ ""
        ∧ pyStrip (mealGet meal ("strMeasure" ++ toString i) "") ≠ "" then
       acc ++ [pyStrip (mealGet meal ("strMeasure" ++ toString i) "") ++ " " ++
         pyStrip (mealGet meal ("strIngredient" ++ toString i) "")]
     else acc ++ [pyStrip (mealGet meal ("strIngredient" ++ toString i) "")])
    = (match extractEntry meal i with
       | none => acc
       | some s => acc ++ [s]) := by
  simp only [extractEntry]
  by_cases h1 : pyStrip (mealGet meal ("strIngredient" ++ toString i) "") = ""
  · rw [if_pos (Or.inr h1), if_pos h1]
  · have ha : ¬ (mealGet meal ("strIngredient" ++ toString i) "" = ""
        ∨ pyStrip (mealGet meal ("strIngredient" ++ toString i) "") = "") := by
      rintro (he | he)
      · exact h1 (by rw [he]; rfl)
      · exact h1 he
    rw [if_neg ha, if_neg h1]
    by_cases h2 : pyStrip (mealGet meal ("strMeasure" ++ toString i) "") = ""
    · have hm : ¬ (mealGet meal ("strMeasure" ++ toString i) "" ≠ ""
          ∧ pyStrip (mealGet meal ("strMeasure" ++ toString i) "") ≠ "") := by
        rintro ⟨_, hs⟩; exact hs h2
      rw [if_neg hm, if_neg (not_not_intro h2)]
    · have hm : (mealGet meal ("strMeasure" ++ toString i) "" ≠ ""
          ∧ pyStrip (mealGet meal ("strMeasure" ++ toString i) "") ≠ "") := by
        refine ⟨?_, h2⟩
        intro he
        exact h2 (by rw [he]; rfl)
      rw [if_pos hm, if_pos h2]

theorem extract_fold_eq (meal : Meal) :
    ∀ (idxs : List Nat) (acc : List String),
      idxs.foldl (fun acc i =>
        let ingredient := mealGet meal ("strIngredient" ++ toString i) ""
        let measure := mealGet meal ("strMeasure" ++ toString i) ""
        if ingredient = "" ∨ pyStrip ingredient = "" then acc
        else if measure ≠ "" ∧ pyStrip measure ≠ "" then
          acc ++ [pyStrip measure ++ " " ++ pyStrip ingredient]
        else acc ++ [pyStrip ingredient]) acc
      = acc ++ idxs.filterMap (extractEntry meal) := by
  intro idxs
  induction idxs with
  | nil => intro acc; simp
  | cons i t ih =>
    intro acc
    simp only [List.foldl_cons, List.filterMap_cons]
    rw [extract_step meal i acc]
    cases hE : extractEntry meal i with
    | none => simp only [hE]; exact ih acc
    | some s => simp only [hE]; rw [ih]; simp

theorem extract_ingredients_eq (meal : Meal) :
    extract_ingredients meal =
      (if extractIngredientsSpec meal = [] then ["No ingredients listed"]
       else extractIngredientsSpec meal) := by
  unfold extract_ingredients extractIngredientsSpec
  rw [extract_fold_eq meal (List.range' 1 20) []]
  simp

theorem extract_ingredients_len_ge (meal : Meal) :
    1 ≤ (extract_ingredients meal).length := by
  rw [extract_ingredients_eq]
  split
  · simp
  · rename_i h
    exact Nat.one_le_iff_ne_zero.mpr (by simpa [List.length_eq_zero] using h)

theorem extract_ingredients_len_le (meal : Meal) :
    (extract_ingredients meal).length ≤ 20 := by
  rw [extract_ingredients_eq]
  split
  · simp
  · calc (extractIngredientsSpec meal).length
        ≤ (List.range' 1 20).length := List.length_filterMap_le _ _
      _ = 20 := by simp

/-- C6: the ingredient extraction reads the twenty numbered
ingredient/measure pairs in index order, emits `measure ingredient`
(stripped) for non-blank measures and the stripped ingredient otherwise,
falls back to `["No ingredients listed"]` when every ingredient is blank,
and always returns between 1 and 20 entries. -/
theorem extract_ingredients_spec (meal : Meal) :
    extract_ingredients meal =
      (if extractIngredientsSpec meal = [] then ["No ingredients listed"]
       else extractIngredientsSpec meal)
    ∧ 1 ≤ (extract_ingredients meal).length
    ∧ (extract_ingredients meal).length ≤ 20 :=
  ⟨extract_ingredients_eq meal, extract_ingredients_len_ge meal,
   extract_ingredients_len_le meal⟩

/-! ### C2: the transformed meal against the `Recipe` schema -/

theorem parse_instructions_ne_nil (s : String) : parse_instructions s ≠ [] := by
  simp only [parse_instructions]
  repeat' split
  all_goals simp_all

theorem min_len_ite (D F : String) (hF : 10 ≤ F.length) :
    10 ≤ (if D.length < 10 then F else D).length := by
  split
  · exact hF
  · omega

theorem create_description_len (meal : Meal) :
    10 ≤ (create_description meal).length := by
  simp only [create_description]
  apply min_len_ite
  rw [String.length_append, String.length_append]
  have h1 : ("This is a traditional recipe for " : String).length = 33 := rfl
  omega

/-- C2 (amended): the transform guarantees only part of the `Recipe`
schema unconditionally: the source marker, 1-20 ingredients, at least one
instruction step, at most 20 tags and a description of at least 10
characters; full `Recipe` construction can still fail (see the
counterexample). -/
theorem transform_partial_schema_guarantees (nowIso : String) (meal : Meal) :
    (transform_meal_to_recipe nowIso meal).source = "external"
    ∧ 1 ≤ (transform_meal_to_recipe nowIso meal).ingredients.length
    ∧ (transform_meal_to_recipe nowIso meal).ingredients.length ≤ 20
    ∧ 1 ≤ (transform_meal_to_recipe nowIso meal).instructions.length
    ∧ (transform_meal_to_recipe nowIso meal).tags.length ≤ 20
    ∧ 10 ≤ (transform_meal_to_recipe nowIso meal).description.length := by
  refine ⟨rfl, ?_, ?_, ?_, ?_, ?_⟩
  · simpa [transform_meal_to_recipe] using extract_ingredients_len_ge meal
  · simpa [transform_meal_to_recipe] using extract_ingredients_len_le meal
  · have h := parse_instructions_ne_nil (mealGet meal "strInstructions" "")
    simp only [transform_meal_to_recipe]
    exact Nat.one_le_iff_ne_zero.mpr (by simpa [List.length_eq_zero] using h)
  · simp only [transform_meal_to_recipe]
    split <;> simp [List.length_take]
  · simpa [transform_meal_to_recipe] using create_description_len meal

/-- C2 counterexample: a meal whose `strMeal` has two characters
transforms into a dictionary whose title violates the `Recipe` schema's
3-character minimum, so `Recipe(**transformed)` fails. -/
theorem transform_not_always_schema_valid :
    recipePydOk (fun _ => some 0) "fresh-id" 0
      ((transform_meal_to_recipe "2024-01-01T00:00:00" shortTitleMeal).toDict) = false := by
  decide

/-! ### Association-list dict lemmas -/

theorem lookup_cons {α : Type} (q x : String) (y : α) (t : List (String × α)) :
    List.lookup q ((x, y) :: t) = if q = x then some y else List.lookup q t := by
  by_cases h : q = x
  · subst h; simp [List.lookup]
  · simp [List.lookup, beq_eq_false_iff_ne.mpr h, h]

theorem lookup_map_replace {α : Type} (k : String) (v : α) (q : String) :
    ∀ (m : List (String × α)),
      List.lookup q (m.map (fun p => if p.1 = k then (k, v) else p)) =
        if q = k then (if (List.lookup k m).isSome then some v else none)
        else List.lookup q m := by
  intro m
  induction m with
  | nil => by_cases h : q = k <;> simp [List.lookup, h]
  | cons a t ih =>
    obtain ⟨x, y⟩ := a
    rw [List.map_cons]
    by_cases h1 : x = k
    · subst h1
      rw [if_pos (show (x, y).1 = x from rfl)]
      rw [lookup_cons, lookup_cons, lookup_cons]
      by_cases h2 : q = x
      · simp [h2]
      · simp [h2, ih]
    · rw [if_neg (show ¬ (x, y).1 = k from h1)]
      rw [lookup_cons, lookup_cons, lookup_cons]
      by_cases h2 : q = x
      · subst h2
        have hqk : ¬ q = k := h1
        simp [hqk]
      · have hkx : ¬ k = x := fun he => h1 he.symm
        by_cases h3 : q = k
        · subst h3
          simp [h2, hkx, ih]
          rw [if_neg hkx]
        · simp [h2, h3, ih]

theorem lookup_append_single {α : Type} (k : String) (v : α) (q : String) :
    ∀ (m : List (String × α)), List.lookup k m = none →
      List.lookup q (m ++ [(k, v)]) =
        if q = k then some v else List.lookup q m := by
  intro m
  induction m with
  | nil =>
    intro _
    by_cases h : q = k <;>
      simp [lookup_cons, List.lookup, h, beq_eq_false_iff_ne.mpr]
  | cons a t ih =>
    obtain ⟨x, y⟩ := a
    intro h
    rw [lookup_cons] at h
    have hx : ¬ k = x := by
      intro he
      rw [if_pos he] at h
      exact Option.noConfusion h
    rw [if_neg hx] at h
    rw [List.cons_append, lookup_cons, lookup_cons, ih h]
    by_cases h2 : q = x
    · subst h2
      have hqk : ¬ q = k := fun he => hx he.symm
      simp [hqk]
    · simp [h2]

theorem lookup_assocSet {α : Type} (m : List (String × α)) (k : String) (v : α)
    (q : String) :
    List.lookup q (assocSet m k v) = if q = k then some v else List.lookup q m := by
  unfold assocSet
  split
  · rename_i hs
    rw [lookup_map_replace k v q m, if_pos hs]
  · rename_i hs
    exact lookup_append_single k v q m (Option.not_isSome_iff_eq_none.mp hs)

theorem mem_assocSet {α : Type} {m : List (String × α)} {k : String} {v : α}
    {p : String × α} (hp : p ∈ assocSet m k v) : p = (k, v) ∨ p ∈ m := by
  unfold assocSet at hp
  split at hp
  · rcases List.mem_map.mp hp with ⟨q, hq, he⟩
    by_cases h1 : q.1 = k
    · left; rw [← he, if_pos h1]
    · right; rw [← he, if_neg h1]; exact hq
  · rcases List.mem_append.mp hp with h | h
    · right; exact h
    · left; simpa using h

theorem lookup_mem {α : Type} {k : String} {v : α} :
    ∀ {m : List (String × α)}, List.lookup k m = some v → (k, v) ∈ m := by
  intro m
  induction m with
  | nil => intro h; simp [List.lookup] at h
  | cons a t ih =>
    obtain ⟨x, y⟩ := a
    intro h
    by_cases h1 : k = x
    · subst h1
      simp [List.lookup] at h
      simp [h]
    · rw [List.lookup, show (k == x) = false from beq_eq_false_iff_ne.mpr h1] at h
      exact List.mem_cons_of_mem _ (ih h)

/-! ### C4: the metrics list is a bounded buffer -/

theorem takeLast_length {α : Type} (n : Nat) (l : List α) :
    (takeLast n l).length = min n l.length := by
  simp only [takeLast, List.length_drop]
  omega

theorem takeLast_idem_append {α : Type} (n : Nat) (M L : List α) :
    takeLast n (takeLast n M ++ L) = takeLast n (M ++ L) := by
  unfold takeLast
  rcases le_or_lt M.length n with h | h
  · have h0 : M.length - n = 0 := by omega
    rw [h0, List.drop_zero]
  · have hlen : (M.drop (M.length - n)).length = n := by
      rw [List.length_drop]; omega
    rw [List.length_append, List.length_append, hlen]
    rcases le_or_lt L.length n with h2 | h2
    · have e1 : n + L.length - n = L.length := by omega
      rw [e1, List.drop_append_of_le_length (by omega),
        List.drop_append_of_le_length (by omega), List.drop_drop]
      have e2 : M.length - n + L.length = M.length + L.length - n := by omega
      rw [e2]
    · have e1 : n + L.length - n = n + (L.length - n) := by omega
      have e2 : M.length + L.length - n = M.length + (L.length - n) := by omega
      rw [e1, e2, List.drop_append]
      nth_rewrite 1 [← hlen]
      rw [List.drop_append]

theorem record_metrics (c : MetricsCollector) (ts : Nat) (ot oname : String)
    (dm : ℚ) (md : List (String × MetaVal)) (hmax : c.max_metrics = 1000) :
    (c.record ts ot oname dm md).metrics
      = takeLast 1000 (c.metrics ++
          [{ timestamp := ts, operation_type := ot, operation_name := oname
             duration_ms := pyRound2 dm, metadata := md }]) := by
  simp only [MetricsCollector.record, hmax]
  split
  · rfl
  · rename_i hle
    unfold takeLast
    have h0 : (c.metrics ++
        [({ timestamp := ts, operation_type := ot, operation_name := oname
            duration_ms := pyRound2 dm, metadata := md } : Metric)]).length - 1000 = 0 := by
      omega
    rw [h0, List.drop_zero]

theorem record_max_metrics (c : MetricsCollector) (ts : Nat) (ot oname : String)
    (dm : ℚ) (md : List (String × MetaVal)) :
    (c.record ts ot oname dm md).max_metrics = c.max_metrics := rfl

theorem foldRecords_metrics :
    ∀ (calls : List RecordCall) (c : MetricsCollector) (M : List Metric),
      c.max_metrics = 1000 → c.metrics = takeLast 1000 M →
      (foldRecords c calls).metrics = takeLast 1000 (M ++ calls.map callMetric)
      ∧ (foldRecords c calls).max_metrics = 1000 := by
  intro calls
  induction calls with
  | nil =>
    intro c M h1 h2
    simp only [foldRecords, List.foldl_nil, List.map_nil, List.append_nil]
    exact ⟨h2, h1⟩
  | cons r t ih =>
    intro c M h1 h2
    have hrec := record_metrics c r.ts r.op_type r.op_name r.duration r.metadata h1
    have hmax : (c.record r.ts r.op_type r.op_name r.duration r.metadata).max_metrics
        = 1000 := by rw [record_max_metrics, h1]
    have h3 : (c.record r.ts r.op_type r.op_name r.duration r.metadata).metrics
        = takeLast 1000 (M ++ [callMetric r]) := by
      rw [hrec, h2, takeLast_idem_append]
      rfl
    have h4 := ih (c.record r.ts r.op_type r.op_name r.duration r.metadata)
      (M ++ [callMetric r]) hmax h3
    simp only [foldRecords, List.foldl_cons] at *
    rw [List.append_assoc] at h4
    simpa using h4

theorem runRecords_metrics (calls : List RecordCall) :
    (runRecords calls).metrics = takeLast 1000 (calls.map callMetric) := by
  have h := foldRecords_metrics calls MetricsCollector.init [] rfl rfl
  simpa [runRecords] using h.1

theorem get_recent_eq (c : MetricsCollector) (limit : Int) (h : 1 ≤ limit) :
    c.get_recent_metrics limit = takeLast limit.toNat c.metrics := by
  simp only [MetricsCollector.get_recent_metrics, pySliceFrom, takeLast]
  rw [if_pos (by omega)]
  congr 1
  omega

/-- C4 (amended): after any sequence of `record` calls the metrics list
holds the last up-to-1000 recorded samples in append order (so at most
`max_metrics = 1000` entries), and for `limit ≥ 1` `get_recent_metrics`
returns the last `min(limit, length)` of them in that order; the original
claim's unrestricted `limit` fails at `limit = 0`, where the Python slice
`metrics[-0:]` returns the entire list. -/
theorem metrics_bounded_buffer (calls : List RecordCall) (limit : Int) :
    (runRecords calls).metrics = takeLast 1000 (calls.map callMetric)
    ∧ (runRecords calls).metrics.length ≤ 1000
    ∧ (1 ≤ limit →
        (runRecords calls).get_recent_metrics limit
          = takeLast limit.toNat (runRecords calls).metrics
        ∧ ((runRecords calls).get_recent_metrics limit).length
          = min limit.toNat (runRecords calls).metrics.length) := by
  have h1 := runRecords_metrics calls
  refine ⟨h1, ?_, ?_⟩
  · rw [h1, takeLast_length]
    omega
  · intro hl
    have h2 := get_recent_eq (runRecords calls) limit hl
    exact ⟨h2, by rw [h2, takeLast_length]⟩

/-- C4 witness: the bounded-buffer theorem applied to one concrete
record call with `limit = 1`. -/
theorem metrics_bounded_buffer_witness :
    (1 : Int) ≤ 1
    ∧ ((runRecords [⟨0, "internal", "get_recipe", 1, []⟩]).get_recent_metrics 1
        = takeLast (Int.toNat 1)
            (runRecords [⟨0, "internal", "get_recipe", 1, []⟩]).metrics
      ∧ ((runRecords [⟨0, "internal", "get_recipe", 1, []⟩]).get_recent_metrics 1).length
        = min (Int.toNat 1)
            (runRecords [⟨0, "internal", "get_recipe", 1, []⟩]).metrics.length) :=
  ⟨by decide,
   (metrics_bounded_buffer [⟨0, "internal", "get_recipe", 1, []⟩] 1).2.2 (by decide)⟩

/-- C4 counterexample: with one recorded metric,
`get_recent_metrics(0)` returns 1 entry — the whole list, because the
Python slice `metrics[-0:]` is `metrics[0:]` — while the claim demands
the last `min(0, 1) = 0` entries. -/
theorem get_recent_zero_returns_all :
    ((runRecords [⟨0, "internal", "get_recipe", 1, []⟩]).get_recent_metrics 0).length
      = 1 := by decide

/-! ### C5: per-operation running aggregates -/

theorem record_stats_lookup (c : MetricsCollector) (ts : Nat) (ot oname : String)
    (dm : ℚ) (md : List (String × MetaVal)) (q : String) :
    List.lookup q ((c.record ts ot oname dm md).operation_stats)
      = if q = oname then
          some (recordStats ((List.lookup oname c.operation_stats).getD OpStats.init) dm)
        else List.lookup q c.operation_stats := by
  simp only [MetricsCollector.record]
  rw [lookup_assocSet]
  rfl

theorem statsOf_append (ds : List ℚ) (d : ℚ) :
    statsOf (ds ++ [d]) = some (recordStats ((statsOf ds).getD OpStats.init) d) := by
  cases ds with
  | nil => simp [statsOf, recordStats, OpStats.init]
  | cons e rest =>
    simp [statsOf, recordStats, List.sum_append, List.foldl_append, add_assoc]

theorem opDurations_append (calls : List RecordCall) (r : RecordCall) (n : String) :
    opDurations (calls ++ [r]) n
      = opDurations calls n ++ (if r.op_name = n then [r.duration] else []) := by
  simp only [opDurations, List.filter_append]
  split
  · rename_i h
    simp [List.filter, h]
  · rename_i h
    simp [List.filter, h]

theorem runRecords_stats (n : String) (calls : List RecordCall) :
    List.lookup n (runRecords calls).operation_stats
      = statsOf (opDurations calls n) := by
  induction calls using List.reverseRecOn with
  | nil => rfl
  | append_singleton l r ih =>
    rw [opDurations_append]
    have hrun : runRecords (l ++ [r])
        = (runRecords l).record r.ts r.op_type r.op_name r.duration r.metadata := by
      simp [runRecords, foldRecords, List.foldl_append]
    rw [hrun, record_stats_lookup]
    by_cases hn : n = r.op_name
    · rw [if_pos hn, if_pos hn.symm, statsOf_append, ← hn, ih]
    · rw [if_neg hn, if_neg (fun he => hn he.symm), List.append_nil, ih]

/-- C5 (amended): assuming all recorded durations are nonnegative, after
recording durations `d :: rest` under operation name `n` (arbitrarily
interleaved with other names) `operation_stats[n]` holds the count, the
exact total, the minimum, the maximum, and `round(total/count, 2)`; for a
negative duration the `max_ms` component fails because its running
maximum starts at 0, see the counterexample. -/
theorem operation_stats_running_aggregates (calls : List RecordCall)
    (n : String) (d : ℚ) (rest : List ℚ)
    (hds : opDurations calls n = d :: rest)
    (hnn : ∀ x ∈ d :: rest, 0 ≤ x) :
    List.lookup n (runRecords calls).operation_stats
      = some { count := (d :: rest).length
               total_ms := (d :: rest).sum
               min_ms := some (rest.foldl min d)
               max_ms := rest.foldl max d
               avg_ms := some (pyRound2 ((d :: rest).sum / ((d :: rest).length : ℚ))) } := by
  rw [runRecords_stats, hds]
  have h0 : 0 ≤ d := hnn d (List.mem_cons_self d rest)
  simp only [statsOf, List.foldl_cons, max_eq_right h0]

/-- C5 witness: three concrete record calls, two of them under `"op"`. -/
theorem operation_stats_running_aggregates_witness :
    opDurations [⟨0, "internal", "op", 3, []⟩, ⟨1, "internal", "other", 5, []⟩,
        ⟨2, "internal", "op", 1, []⟩] "op" = [3, 1]
    ∧ List.lookup "op" (runRecords [⟨0, "internal", "op", 3, []⟩,
        ⟨1, "internal", "other", 5, []⟩, ⟨2, "internal", "op", 1, []⟩]).operation_stats
      = some { count := ([3, 1] : List ℚ).length
               total_ms := ([3, 1] : List ℚ).sum
               min_ms := some (([1] : List ℚ).foldl min 3)
               max_ms := ([1] : List ℚ).foldl max 3
               avg_ms := some (pyRound2 (([3, 1] : List ℚ).sum / (([3, 1] : List ℚ).length : ℚ))) } :=
  ⟨by decide,
   operation_stats_running_aggregates
     [⟨0, "internal", "op", 3, []⟩, ⟨1, "internal", "other", 5, []⟩,
      ⟨2, "internal", "op", 1, []⟩] "op" 3 [1] (by decide) (by decide)⟩

/-- C5 counterexample: after recording the single duration -1 under
`"op"`, the stored `max_ms` is 0 (the running maximum starts at 0), not
the claimed `max(d1..dk) = -1`. -/
theorem max_ms_wrong_for_negative_duration :
    (List.lookup "op" (runRecords
        [⟨0, "internal", "op", -1, []⟩]).operation_stats).map OpStats.max_ms
      = some 0
    ∧ (List.lookup "op" (runRecords
        [⟨0, "internal", "op", -1, []⟩]).operation_stats).map OpStats.max_ms
      ≠ some (-1) := by
  constructor <;> decide

/-! ### C3: external reads never touch the storage mapping -/

theorem storage_get_all (w : World) (ts : Nat) (d : ℚ) :
    (get_all_recipes w ts d).2.storage = w.storage := rfl

theorem storage_search_recipes (w : World) (q : String) (ts : Nat) (d : ℚ) :
    (search_recipes w q ts d).2.storage = w.storage := by
  unfold search_recipes
  split <;> rfl

theorem storage_search_meals (net : Net) (w : World) (q : String) (ts : Nat)
    (d : ℚ) : (search_meals net w q ts d).2.storage = w.storage := by
  unfold search_meals
  split <;> rfl

theorem storage_get_meal_by_id (net : Net) (w : World) (meal_id : String)
    (ts : Nat) (d : ℚ) :
    (get_meal_by_id net w meal_id ts d).2.storage = w.storage := by
  unfold get_meal_by_id
  split <;> rfl

/-- C3: `GET /api/recipes` with any (optional) search and
`GET /api/recipes/external/recipe_id` leave the storage mapping
unchanged for every request environment — only metrics are recorded. -/
theorem external_reads_leave_storage (net : Net) (w : World)
    (search : Option String) (ts1 : Nat) (d1 : ℚ) (ts2 : Nat) (d2 : ℚ)
    (recipe_id : String) (ts : Nat) (d : ℚ) :
    (apiGetRecipes net w search ts1 d1 ts2 d2).2.storage = w.storage
    ∧ (apiGetExternalRecipe net w recipe_id ts d).2.storage = w.storage := by
  constructor
  · simp only [apiGetRecipes]
    split
    · rfl
    · split
      · split
        · simp [storage_search_meals, storage_search_recipes]
        · simp [storage_get_all]
      · simp [storage_get_all]
  · simp only [apiGetExternalRecipe]
    split
    · rfl
    · split
      · simp [storage_get_meal_by_id]
      · split <;> simp [storage_get_meal_by_id]

/-! ### C8: storage keys match recipe ids -/

theorem import_fold_keys (parseIso : String → Option Nat)
    (freshIds : Nat → String) (now : Nat) :
    ∀ (entries : List (Nat × ImportEntry)) (acc : List (String × Recipe) × Nat),
      (∀ p ∈ acc.1, p.2.id = p.1) →
      ∀ p ∈ (entries.foldl (fun acc p =>
          match importTry parseIso (freshIds p.1) now p.2 with
          | some r => (assocSet acc.1 r.id r, acc.2 + 1)
          | none => acc) acc).1, p.2.id = p.1 := by
  intro entries
  induction entries with
  | nil => intro acc hacc; exact hacc
  | cons e t ih =>
    intro acc hacc
    simp only [List.foldl_cons]
    cases hE : importTry parseIso (freshIds e.1) now e.2 with
    | none => simp only [hE]; exact ih acc hacc
    | some r =>
      simp only [hE]
      refine ih _ ?_
      intro p hp
      rcases mem_assocSet hp with rfl | hp2
      · rfl
      · exact hacc p hp2

/-- C8: in every state reachable through the `RecipeStorage` constructor
and `create_recipe`, `update_recipe`, `delete_recipe` and
`import_recipes`, every key of the mapping equals the id of the recipe
stored under it. -/
theorem storage_keys_match {w : World} (hw : Reachable w) :
    ∀ p ∈ w.storage, p.2.id = p.1 := by
  induction hw with
  | init now m =>
    intro p hp
    rcases List.mem_singleton.mp (by simpa [storageInit, assocSet] using hp) with rfl
    rfl
  | create f fresh now ts d hr ih =>
    intro p hp
    simp only [create_recipe] at hp
    split at hp
    · rcases mem_assocSet hp with rfl | hp2
      · rfl
      · exact ih p hp2
    · exact ih p hp
  | update recipe_id f now ts d hr ih =>
    intro p hp
    simp only [update_recipe] at hp
    split at hp
    · exact ih p hp
    · rename_i r hr2
      rcases mem_assocSet hp with rfl | hp2
      · have : r.id = recipe_id := ih (recipe_id, r) (lookup_mem hr2)
        simpa [applyUpdate] using this
      · exact ih p hp2
  | delete recipe_id ts d hr ih =>
    intro p hp
    simp only [delete_recipe] at hp
    split at hp
    · exact ih p (List.mem_of_mem_filter hp)
    · exact ih p hp
  | importR parseIso freshIds now data ts d hr ih =>
    intro p hp
    simp only [import_recipes] at hp
    exact import_fold_keys parseIso freshIds now data.enum ([], 0) (by simp) p hp

/-- C8 witness: the invariant applied to the freshly constructed
storage, whose single entry is the hardcoded test recipe. -/
theorem storage_keys_match_witness :
    (defaultTestRecipe 0).id = "test-recipe-schema-001" :=
  storage_keys_match (Reachable.init 0 MetricsCollector.init)
    ("test-recipe-schema-001", defaultTestRecipe 0)
    (by simp [storageInit, assocSet])

/-! ### C9: `update_recipe` frame conditions -/

/-- C9: updating a missing id returns `None` and leaves the mapping
unchanged; updating a present id overwrites exactly the seven
`RecipeUpdate` fields and `updated_at` on that recipe, preserves its
`id`, `source` and `created_at`, and leaves every other key's binding
unchanged. -/
theorem update_recipe_frame (w : World) (recipe_id : String)
    (f : RecipeFields) (now ts : Nat) (d : ℚ) :
    (List.lookup recipe_id w.storage = none →
      (update_recipe w recipe_id f now ts d).1 = none
      ∧ (update_recipe w recipe_id f now ts d).2.storage = w.storage)
    ∧ (∀ r, List.lookup recipe_id w.storage = some r →
      (update_recipe w recipe_id f now ts d).1 = some (applyUpdate r f now)
      ∧ (applyUpdate r f now).title = f.title
      ∧ (applyUpdate r f now).description = f.description
      ∧ (applyUpdate r f now).ingredients = f.ingredients
      ∧ (applyUpdate r f now).instructions = f.instructions
      ∧ (applyUpdate r f now).tags = f.tags
      ∧ (applyUpdate r f now).region = f.region
      ∧ (applyUpdate r f now).cuisine = f.cuisine
      ∧ (applyUpdate r f now).updated_at = now
      ∧ (applyUpdate r f now).id = r.id
      ∧ (applyUpdate r f now).source = r.source
      ∧ (applyUpdate r f now).created_at = r.created_at
      ∧ List.lookup recipe_id (update_recipe w recipe_id f now ts d).2.storage
          = some (applyUpdate r f now)
      ∧ ∀ k, k ≠ recipe_id →
          List.lookup k (update_recipe w recipe_id f now ts d).2.storage
            = List.lookup k w.storage) := by
  constructor
  · intro h
    have hu : update_recipe w recipe_id f now ts d
        = (none,
           { w with metrics := (w.metrics.record ts "internal" "update_recipe" d
               [("recipe_id", .mStr recipe_id), ("success", .mBool false)]) }) := by
      simp only [update_recipe, h]
    rw [hu]
    exact ⟨rfl, rfl⟩
  · intro r h
    have hu : update_recipe w recipe_id f now ts d
        = (some (applyUpdate r f now),
           { storage := assocSet w.storage recipe_id (applyUpdate r f now)
             metrics := (w.metrics.record ts "internal" "update_recipe" d
               [("recipe_id", .mStr recipe_id), ("success", .mBool true)]) }) := by
      simp only [update_recipe, h]
    rw [hu]
    refine ⟨rfl, rfl, rfl, rfl, rfl, rfl, rfl, rfl, rfl, rfl, rfl, rfl, ?_, ?_⟩
    · rw [lookup_assocSet, if_pos rfl]
    · intro k hk
      rw [lookup_assocSet, if_neg hk]

/-- C9 witness: the frame theorem applied to the initial storage, once
with a missing id and once with the test recipe's id. -/
theorem update_recipe_frame_witness :
    ((update_recipe { storage := storageInit 0, metrics := MetricsCollector.init }
        "missing-id" sampleFields 1 2 3).1 = none
      ∧ (update_recipe { storage := storageInit 0, metrics := MetricsCollector.init }
        "missing-id" sampleFields 1 2 3).2.storage
          = ({ storage := storageInit 0, metrics := MetricsCollector.init } : World).storage)
    ∧ (update_recipe { storage := storageInit 0, metrics := MetricsCollector.init }
        "test-recipe-schema-001" sampleFields 1 2 3).1
          = some (applyUpdate (defaultTestRecipe 0) sampleFields 1) :=
  ⟨(update_recipe_frame { storage := storageInit 0, metrics := MetricsCollector.init }
      "missing-id" sampleFields 1 2 3).1 (by decide),
   ((update_recipe_frame { storage := storageInit 0, metrics := MetricsCollector.init }
      "test-recipe-schema-001" sampleFields 1 2 3).2 (defaultTestRecipe 0) (by decide)).1⟩

/-! ### C10: `import_recipes` clears then stores the valid entries -/

theorem import_fold_spec (parseIso : String → Option Nat)
    (freshIds : Nat → String) (now : Nat) :
    ∀ (entries : List (Nat × ImportEntry)) (acc : List (String × Recipe) × Nat),
      entries.foldl (fun acc p =>
        match importTry parseIso (freshIds p.1) now p.2 with
        | some r => (assocSet acc.1 r.id r, acc.2 + 1)
        | none => acc) acc
      = ((entries.filterMap (fun p => importTry parseIso (freshIds p.1) now p.2)).foldl
          (fun st r => assocSet st r.id r) acc.1,
         acc.2 + (entries.filterMap
           (fun p => importTry parseIso (freshIds p.1) now p.2)).length) := by
  intro entries
  induction entries with
  | nil => intro acc; simp
  | cons e t ih =>
    intro acc
    simp only [List.foldl_cons, List.filterMap_cons]
    cases hE : importTry parseIso (freshIds e.1) now e.2 with
    | none => simp only [hE]; rw [ih]
    | some r =>
      simp only [hE]
      rw [ih]
      simp only [List.foldl_cons, List.length_cons]
      congr 1
      omega

/-- C10: `import_recipes` unconditionally clears the mapping, then stores
exactly the entries that successfully construct a `Recipe`, keyed by id,
returning how many were stored; when every entry fails the mapping ends
empty regardless of what was stored before. -/
theorem import_replaces_with_valid (w : World) (parseIso : String → Option Nat)
    (freshIds : Nat → String) (now : Nat) (data : List ImportEntry)
    (ts : Nat) (d : ℚ) :
    (import_recipes w parseIso freshIds now data ts d).1
      = (importResults parseIso freshIds now data).length
    ∧ (import_recipes w parseIso freshIds now data ts d).2.storage
      = (importResults parseIso freshIds now data).foldl
          (fun st r => assocSet st r.id r) []
    ∧ (importResults parseIso freshIds now data = [] →
        (import_recipes w parseIso freshIds now data ts d).2.storage = []) := by
  have h := import_fold_spec parseIso freshIds now data.enum
    (([] : List (String × Recipe)), 0)
  simp only [import_recipes, importResults] at *
  rw [h]
  refine ⟨by omega, rfl, ?_⟩
  intro he
  rw [he]
  rfl

/-- C10 witness: importing a single invalid (non-dict) entry over the
non-empty initial storage stores nothing and leaves the mapping empty. -/
theorem import_replaces_with_valid_witness :
    importResults (fun _ => none) (fun _ => "uuid-1") 0 [ImportEntry.nonDict] = []
    ∧ (import_recipes { storage := storageInit 0, metrics := MetricsCollector.init }
        (fun _ => none) (fun _ => "uuid-1") 0 [ImportEntry.nonDict] 1 2).2.storage = [] :=
  ⟨rfl,
   (import_replaces_with_valid
      { storage := storageInit 0, metrics := MetricsCollector.init }
      (fun _ => none) (fun _ => "uuid-1") 0 [ImportEntry.nonDict] 1 2).2.2 rfl⟩

end RecipeExplorer
